import Mathlib

/-!
Verification of the feed generation and query-building subsystem of the
daily-api repository. The development embeds, as Lean definitions,
the predicate builders of src/common/feedGenerator.ts (both the SQL
strings they produce and the boolean semantics of those predicates over
a relational database model) and the personalized feed cache manager
(modelled from the specification, since src/personalizedFeed.ts is not
part of the provided sources). Theorems at the end settle the frozen
claims about this subsystem.
-/

/-! ## Relational database model

Row types mirror the entities referenced by feedGenerator.ts:
PostKeyword, FeedTag, FeedSource, Source, HiddenPost and Post.
A Database is a finite list of rows per table. -/

/-- Row of the post_keyword tag-association table. -/
structure PostKeywordRow where
  keyword : String
  postId : String
deriving Repr, DecidableEq

/-- Row of the feed_tag table: one configured tag of a feed. -/
structure FeedTagRow where
  feedId : String
  tag : String
  blocked : Bool
deriving Repr, DecidableEq

/-- Row of the feed_source table: one excluded source of a feed. -/
structure FeedSourceRow where
  feedId : String
  sourceId : String
deriving Repr, DecidableEq

/-- Row of the source table. -/
structure SourceRow where
  id : String
  active : Bool
deriving Repr, DecidableEq

/-- Row of the hidden_post table: a post hidden by a user. -/
structure HiddenPostRow where
  postId : String
  userId : String
deriving Repr, DecidableEq

/-- Row of the post table, restricted to the columns the feed builders read. -/
structure PostRow where
  id : String
  sourceId : String
  deleted : Bool
  banned : Bool
deriving Repr, DecidableEq

/-- Database instance: the tables consulted by the feed query builders. -/
structure Database where
  postKeywords : List PostKeywordRow
  feedTags : List FeedTagRow
  feedSources : List FeedSourceRow
  sources : List SourceRow
  hiddenPosts : List HiddenPostRow
deriving Repr

/-- Request context as seen by the builders: an optional logged-in user id. -/
structure Ctx where
  userId : Option String
deriving Repr, DecidableEq

/-! ## Query builder model

The typeorm SelectQueryBuilder is modelled as the list of WHERE clauses
added with andWhere and the list of ORDER BY clauses. Values passed
through typeorm parameter binding never appear in the clause strings;
only values the source interpolates into the template string do. -/

/-- Accumulated state of a SelectQueryBuilder: WHERE and ORDER BY clauses. -/
structure QueryBuilder where
  whereClauses : List String
  orderClauses : List String
deriving Repr, DecidableEq

/-- Builder with no clause yet. -/
def emptyBuilder : QueryBuilder :=
  { whereClauses := [], orderClauses := [] }

/-- Embedding of builder.andWhere(clause): appends one WHERE clause. -/
def QueryBuilder.andWhere (b : QueryBuilder) (clause : String) : QueryBuilder :=
  { b with whereClauses := b.whereClauses ++ [clause] }

/-- Embedding of builder.orderBy(clause): appends one ORDER BY clause. -/
def QueryBuilder.orderBy (b : QueryBuilder) (clause : String) : QueryBuilder :=
  { b with orderClauses := b.orderClauses ++ [clause] }

/-- Single-quote character as a string, used by fixedIdsFeedBuilder when it
wraps each id in quotes. -/
def quoteMark : String := String.singleton (Char.ofNat 39)

/-! ## Embeddings of the builders of src/common/feedGenerator.ts -/

/-- SQL string produced by whereTags (feedGenerator.ts lines 19-33): a
correlated EXISTS subquery over post_keyword; the tag list is passed through
parameter binding under variableAlias, never interpolated. -/
def whereTagsSql (tableAlias variableAlias : String) : String :=
  "EXISTS(SELECT 1 FROM post_keyword pk WHERE pk.keyword IN (:..." ++
    variableAlias ++ ") AND pk.postId = " ++ tableAlias ++ ".id)"

/-- SQL string produced by whereNotTags (feedGenerator.ts lines 35-41):
the literal negation of whereTags with variableAlias blockedTags. -/
def whereNotTagsSql (tableAlias : String) : String :=
  "NOT " ++ whereTagsSql tableAlias "blockedTags"

/-- Boolean semantics of the whereTags predicate for one post: a
post_keyword row exists whose keyword is among tags and whose postId
matches the post. -/
def whereTagsHolds (tags : List String) (db : Database) (post : PostRow) : Bool :=
  db.postKeywords.any fun pk => tags.contains pk.keyword && pk.postId == post.id

/-- Boolean semantics of the whereNotTags predicate: the source prepends
NOT to the whereTags fragment, so the semantics is boolean negation. -/
def whereNotTagsHolds (tags : List String) (db : Database) (post : PostRow) : Bool :=
  !(whereTagsHolds tags db post)

/-- Tags configured for a feed: the tag column of feed_tag rows whose feedId
matches. The blocked filter is commented out in the source (line 96), so
blocked rows are included. -/
def feedTagsOf (feedId : String) (db : Database) : List String :=
  (db.feedTags.filter fun ft => ft.feedId == feedId).map fun ft => ft.tag

/-- Boolean semantics of whereTagsInFeed (feedGenerator.ts lines 86-108):
the produced fragment is (NOT EXISTS feedTagSubquery OR EXISTS matchSubquery),
true when the feed has no configured tag row at all, or some post_keyword row
of the post has a keyword among the feed tags. -/
def whereTagsInFeedHolds (feedId : String) (db : Database) (post : PostRow) : Bool :=
  (feedTagsOf feedId db).isEmpty ||
    db.postKeywords.any fun pk =>
      (feedTagsOf feedId db).contains pk.keyword && pk.postId == post.id

/-- Boolean semantics of applyFeedWhere (feedGenerator.ts lines 155-185):
an EXISTS subquery requires an active source matching the post sourceId and
the post not deleted; when a user is logged in and removeHiddenPosts holds, a
left join on hidden_post with IS NULL excludes hidden posts; when
removeBannedPosts holds, banned posts are excluded. -/
def applyFeedWhereHolds (ctx : Ctx) (removeHiddenPosts removeBannedPosts : Bool)
    (db : Database) (post : PostRow) : Bool :=
  (db.sources.any fun s => s.active && s.id == post.sourceId && !post.deleted) &&
  (match ctx.userId with
   | some uid =>
     if removeHiddenPosts then
       !(db.hiddenPosts.any fun h => h.postId == post.id && h.userId == uid)
     else true
   | none => true) &&
  (if removeBannedPosts then !post.banned else true)

/-- Anonymous feed filters (feedGenerator.ts lines 297-302); absent optional
fields are modelled as empty lists. -/
structure AnonymousFeedFilters where
  includeSources : List String
  excludeSources : List String
  includeTags : List String
  blockedTags : List String
deriving Repr, DecidableEq

/-- Embedding of anonymousFeedBuilder (feedGenerator.ts lines 304-334).
Sources: include IN clause when includeSources is non-empty, else exclude
NOT IN clause when excludeSources is non-empty (bound parameters). Tags: two
independent if statements add the whereTags and whereNotTags fragments. -/
def anonymousFeedBuilder (filters : AnonymousFeedFilters) (b : QueryBuilder)
    (tableAlias : String) : QueryBuilder :=
  let b1 :=
    if !filters.includeSources.isEmpty then
      b.andWhere (tableAlias ++ ".sourceId IN (:...sources)")
    else if !filters.excludeSources.isEmpty then
      b.andWhere (tableAlias ++ ".sourceId NOT IN (:...sources)")
    else b
  let b2 :=
    if !filters.includeTags.isEmpty then b1.andWhere (whereTagsSql tableAlias "tags")
    else b1
  let b3 :=
    if !filters.blockedTags.isEmpty then b2.andWhere (whereNotTagsSql tableAlias)
    else b2
  b3

/-- Wrapping of one id in single quotes, as ids.map(id =&gt; quoted id) does in
fixedIdsFeedBuilder. -/
def quoteId (id : String) : String := quoteMark ++ id ++ quoteMark

/-- Comma-joined quoted id list of fixedIdsFeedBuilder (feedGenerator.ts
lines 412-415): the quoted ids joined by commas, or the quoted sentinel
nosuchid when the list is empty. -/
def fixedIdsStr (ids : List String) : String :=
  if ids.isEmpty then quoteId "nosuchid"
  else String.intercalate "," (ids.map quoteId)

/-- Embedding of fixedIdsFeedBuilder (feedGenerator.ts lines 406-419): the
id list is interpolated directly into the IN list and into the ORDER BY
array_position expression, with no validation of the ids and no error path. -/
def fixedIdsFeedBuilder (ids : List String) (b : QueryBuilder)
    (tableAlias : String) : QueryBuilder :=
  (b.andWhere (tableAlias ++ ".id IN (" ++ fixedIdsStr ids ++ ")")).orderBy
    ("array_position(array[" ++ fixedIdsStr ids ++ "], " ++ tableAlias ++ ".id)")

/-- Effective id list matched by the IN clause of fixedIdsFeedBuilder: the
given ids, or the sentinel nosuchid when the list is empty. -/
def fixedIdsEffective (ids : List String) : List String :=
  if ids.isEmpty then ["nosuchid"] else ids

/-- Boolean semantics of the fixedIdsFeedBuilder IN clause for one post. -/
def fixedIdsMatches (ids : List String) (post : PostRow) : Bool :=
  (fixedIdsEffective ids).contains post.id

/-! ## Personalized feed cache manager, modelled from the spec

The module src/personalizedFeed.ts is referenced by its tests
(src/__tests__/personalizedFeed.ts) but is not among the provided source
files. The definitions below are modelled from the specification,
sections 4.2, 4.3, 6 and 8, and are kept consistent with the observable
behaviour the tests pin down. -/

/-- Modelled from the spec: cache key derivation of the missing
src/personalizedFeed.ts (getPersonalizedFeedKey). Keys have the form
feeds:(feedId or anonymous), with :userId appended when a user id is
present (spec section 6). -/
def getPersonalizedFeedKey (userId feedId : Option String) : String :=
  "feeds:" ++ feedId.getD "anonymous" ++
    (match userId with
     | some u => ":" ++ u
     | none => "")

/-- Modelled from the spec: cached state for one feed cache key of the
missing src/personalizedFeed.ts. The sorted set of ranked ids is a
rank-ordered list, and the separate time key is an optional timestamp in
milliseconds. -/
structure FeedState where
  cache : List String
  lastUpdated : Option Nat
deriving Repr, DecidableEq

/-- Cold cache: no ids and no freshness timestamp. -/
def coldState : FeedState :=
  { cache := [], lastUpdated := none }

/-- Staleness threshold of the feed cache, 30 minutes in milliseconds
(spec section 4.3). -/
def staleThresholdMs : Nat := 30 * 60 * 1000

/-- Modelled from the spec: freshness test of the missing
src/personalizedFeed.ts (spec section 4.3, step 3). A fetch is needed when
no timestamp exists, or the cached slice does not cover the requested page,
or the request is for the head (offset zero) and the cache is older than
the staleness threshold. -/
def feedNeedsFetch (st : FeedState) (pageSize offset now : Nat) : Bool :=
  match st.lastUpdated with
  | none => true
  | some t =>
    decide (((st.cache.drop offset).take pageSize).length < pageSize) ||
      (offset == 0 && decide (staleThresholdMs < now - t))

/-- Outcome of one generatePersonalizedFeed call: the served ids, the cache
state afterwards, and how many Ranking Client calls were issued. -/
structure FeedResult where
  ids : List String
  state : FeedState
  rankingCalls : Nat
deriving Repr, DecidableEq

/-- Modelled from the spec: generatePersonalizedFeed of the missing
src/personalizedFeed.ts (spec section 4.3), for one cache key. The ranking
argument is the response the Ranking Client would return if called. On a
needed fetch the client is called once, the returned ids are appended to the
cached sequence at ranks continuing from the current maximum rank, the
timestamp is set to now, and the first pageSize fetched ids are served (the
fetched page is served directly, per spec sections 7 and 8 and the tests);
otherwise the requested slice of the cache is served with no client call. -/
def generatePersonalizedFeed (st : FeedState) (pageSize offset now : Nat)
    (ranking : List String) : FeedResult :=
  if feedNeedsFetch st pageSize offset now then
    { ids := ranking.take pageSize
      state := { cache := st.cache ++ ranking, lastUpdated := some now }
      rankingCalls := 1 }
  else
    { ids := (st.cache.drop offset).take pageSize
      state := st
      rankingCalls := 0 }

/-! ## Ranking Client query construction, modelled from the spec -/

/-- Fixed parameter order of the Ranking Client query string (spec
sections 4.2 and 6). -/
def feedQueryParamOrder : List String :=
  ["token", "page_size", "fresh_page_size", "user_id", "allowed_tags",
   "blocked_tags", "blocked_sources"]

/-- Optional scalar query parameter: present only when the value is present
and non-empty. -/
def optStrParam (name : String) (v : Option String) : List (String × String) :=
  match v with
  | some s => if s.isEmpty then [] else [(name, s)]
  | none => []

/-- Optional list query parameter: present only when the list is non-empty,
with the values comma-joined. -/
def optListParam (name : String) (vs : List String) : List (String × String) :=
  if vs.isEmpty then [] else [(name, String.intercalate "," vs)]

/-- Modelled from the spec: query parameter construction of the Ranking
Client in the missing src/personalizedFeed.ts (spec sections 4.2 and 6).
Parameters appear in the fixed order token, page_size, fresh_page_size,
user_id, allowed_tags, blocked_tags, blocked_sources; each optional
parameter is omitted entirely when its value is absent or empty. -/
def feedQueryParams (token : String) (pageSize freshPageSize : Nat)
    (userId : Option String)
    (allowedTags blockedTags blockedSources : List String) :
    List (String × String) :=
  [("token", token), ("page_size", toString pageSize),
   ("fresh_page_size", toString freshPageSize)]
    ++ optStrParam "user_id" userId
    ++ optListParam "allowed_tags" allowedTags
    ++ optListParam "blocked_tags" blockedTags
    ++ optListParam "blocked_sources" blockedSources

/-- Rendering of a parameter list as the query string appended to
feed.json. -/
def feedQueryString (ps : List (String × String)) : String :=
  String.intercalate "&" (ps.map fun p => p.1 ++ "=" ++ p.2)

/-! ## Theorems settling the claims -/

/-- C7: the predicates built by whereTags and whereNotTags are logical
complements: for every tag set, database and post exactly one of the two
holds; and both fragments are correlated existence subqueries over the
tag-association table (an EXISTS over post_keyword, negated for
whereNotTags), not joins. -/
theorem c7_tag_predicates_complement :
    (∀ (tags : List String) (db : Database) (post : PostRow),
      (whereTagsHolds tags db post = true ∧ whereNotTagsHolds tags db post = false) ∨
      (whereTagsHolds tags db post = false ∧ whereNotTagsHolds tags db post = true)) ∧
    (∀ tableAlias variableAlias : String,
      ∃ rest : String,
        whereTagsSql tableAlias variableAlias =
          "EXISTS(SELECT 1 FROM post_keyword pk WHERE pk.keyword IN (:..." ++ rest) ∧
    (∀ tableAlias : String,
      whereNotTagsSql tableAlias = "NOT " ++ whereTagsSql tableAlias "blockedTags") := by
  refine ⟨?_, ?_, ?_⟩
  · intro tags db post
    cases h : whereTagsHolds tags db post
    · exact Or.inr ⟨rfl, by simp [whereNotTagsHolds, h]⟩
    · exact Or.inl ⟨rfl, by simp [whereNotTagsHolds, h]⟩
  · intro tableAlias variableAlias
    exact ⟨variableAlias ++ ") AND pk.postId = " ++ tableAlias ++ ".id)", rfl⟩
  · intro tableAlias
    rfl

/-- C8: the whereTagsInFeed predicate holds for a post exactly when the post
has a keyword among the tags configured for the feed, or the feed has no tag
configuration at all; in particular it is true for every post when the feed
has zero configured tags. -/
theorem c8_feed_tag_membership_open_policy :
    ∀ (feedId : String) (db : Database) (post : PostRow),
      (whereTagsInFeedHolds feedId db post = true ↔
        (feedTagsOf feedId db = [] ∨
          ∃ pk ∈ db.postKeywords,
            pk.keyword ∈ feedTagsOf feedId db ∧ pk.postId = post.id)) ∧
      (feedTagsOf feedId db = [] → whereTagsInFeedHolds feedId db post = true) := by
  intro feedId db post
  constructor
  · simp [whereTagsInFeedHolds, List.any_eq_true, List.isEmpty_iff,
      List.elem_iff]
  · intro h
    simp [whereTagsInFeedHolds, h]

/-- C9: the applyFeedWhere predicate of the resolver framework holds for a
post exactly when the post has an active source, is not deleted, is not
banned when removeBannedPosts holds, and, for a logged-in viewer with
removeHiddenPosts holding, was not hidden by the viewer; so inactive-source,
deleted, banned and viewer-hidden posts are excluded. -/
theorem c9_global_exclusion_policy :
    ∀ (ctx : Ctx) (removeHiddenPosts removeBannedPosts : Bool)
      (db : Database) (post : PostRow),
      applyFeedWhereHolds ctx removeHiddenPosts removeBannedPosts db post = true ↔
        ((∃ s ∈ db.sources, s.active = true ∧ s.id = post.sourceId) ∧
         post.deleted = false ∧
         (removeBannedPosts = true → post.banned = false) ∧
         (∀ uid, ctx.userId = some uid → removeHiddenPosts = true →
            ¬ ∃ h ∈ db.hiddenPosts, h.postId = post.id ∧ h.userId = uid)) := by
  intro ctx removeHiddenPosts removeBannedPosts db post
  rcases ctx with ⟨_ | uid⟩ <;>
    cases removeHiddenPosts <;>
    cases removeBannedPosts <;>
    cases hdel : post.deleted <;>
    cases hban : post.banned <;>
    simp [applyFeedWhereHolds, List.any_eq_true, hdel, hban]

/-- Database for the C9 witness: one active source, no hidden posts. -/
def c9Db : Database :=
  { postKeywords := [], feedTags := [], feedSources := [],
    sources := [{ id := "s1", active := true }], hiddenPosts := [] }

/-- Post for the C9 witness: visible post of the active source. -/
def c9Post : PostRow :=
  { id := "p1", sourceId := "s1", deleted := false, banned := false }

/-- C9 witness: the characterization applied at a concrete context, database
and post. -/
theorem c9_global_exclusion_policy_witness :
    applyFeedWhereHolds { userId := none } true true c9Db c9Post = true :=
  (c9_global_exclusion_policy { userId := none } true true c9Db c9Post).mpr
    ⟨⟨{ id := "s1", active := true }, by decide, rfl, rfl⟩, rfl,
      fun _ => rfl, fun uid h => nomatch h⟩

/-- C10: with an empty id list, fixedIdsFeedBuilder still produces a
well-formed query: the sentinel literal nosuchid is substituted into the IN
list and the ORDER BY array_position expression, and the resulting predicate
matches no post of any table in which no post carries the sentinel id, so
the fixed-ids feed returns an empty result instead of failing. -/
theorem c10_empty_ids_sentinel (posts : List PostRow) (b : QueryBuilder)
    (tableAlias : String)
    (hno : ∀ p ∈ posts, p.id ≠ "nosuchid") :
    (fixedIdsFeedBuilder [] b tableAlias).whereClauses =
      b.whereClauses ++
        [tableAlias ++ ".id IN (" ++ quoteMark ++ "nosuchid" ++ quoteMark ++ ")"] ∧
    (fixedIdsFeedBuilder [] b tableAlias).orderClauses =
      b.orderClauses ++
        ["array_position(array[" ++ quoteMark ++ "nosuchid" ++ quoteMark ++ "], " ++
          tableAlias ++ ".id)"] ∧
    posts.filter (fun p => fixedIdsMatches [] p) = [] := by
  refine ⟨?_, ?_, ?_⟩
  · simp [fixedIdsFeedBuilder, QueryBuilder.andWhere, QueryBuilder.orderBy,
      fixedIdsStr, quoteId, String.append_assoc]
  · simp [fixedIdsFeedBuilder, QueryBuilder.andWhere, QueryBuilder.orderBy,
      fixedIdsStr, quoteId, String.append_assoc]
  · rw [List.filter_eq_nil_iff]
    intro p hp
    simpa [fixedIdsMatches, fixedIdsEffective] using hno p hp

/-- C10 witness: the sentinel clause and the empty result at a concrete
builder and post table. -/
theorem c10_empty_ids_sentinel_witness :
    (fixedIdsFeedBuilder [] emptyBuilder "post").whereClauses =
      ["post.id IN (" ++ quoteMark ++ "nosuchid" ++ quoteMark ++ ")"] ∧
    (fixedIdsFeedBuilder [] emptyBuilder "post").orderClauses =
      ["array_position(array[" ++ quoteMark ++ "nosuchid" ++ quoteMark ++ "], post.id)"] ∧
    [PostRow.mk "p1" "s1" false false].filter (fun p => fixedIdsMatches [] p) = [] :=
  c10_empty_ids_sentinel [PostRow.mk "p1" "s1" false false] emptyBuilder "post"
    (by decide)

/-- Structurally unsafe fixed id containing a quote that closes the SQL
string literal and injects a tautological OR branch. -/
def maliciousId : String :=
  "x" ++ quoteMark ++ ") OR (" ++ quoteMark ++ "1" ++ quoteMark ++ "=" ++
    quoteMark ++ "1"

/-- C5: the code performs no validation of the caller-supplied fixed id
list; the unsafe id is interpolated verbatim into the IN list and the ORDER
BY array_position expression, the quoted context is escaped, and the builder
returns normally instead of rejecting the value with a client-input error. -/
theorem c5_fixed_ids_not_validated :
    (fixedIdsFeedBuilder [maliciousId] emptyBuilder "p").whereClauses =
      ["p.id IN (" ++ quoteMark ++ "x" ++ quoteMark ++ ") OR (" ++ quoteMark ++
        "1" ++ quoteMark ++ "=" ++ quoteMark ++ "1" ++ quoteMark ++ ")"] ∧
    (fixedIdsFeedBuilder [maliciousId] emptyBuilder "p").orderClauses =
      ["array_position(array[" ++ quoteMark ++ "x" ++ quoteMark ++ ") OR (" ++
        quoteMark ++ "1" ++ quoteMark ++ "=" ++ quoteMark ++ "1" ++ quoteMark ++
        "], p.id)"] := by
  constructor <;> rfl

/-- Filter set of the C6 counterexample: both an include tag and a blocked
tag are present. -/
def c6Filters : AnonymousFeedFilters :=
  { includeSources := [], excludeSources := [],
    includeTags := ["a"], blockedTags := ["b"] }

/-- C6 counterexample: with a non-empty include-tag filter the blocked-tag
filter is still applied; the built query carries both the whereTags and the
whereNotTags fragments, contradicting the claimed include-else-exclude
tie-breaking for tags. -/
theorem c6_counterexample_both_tag_filters :
    c6Filters.includeTags ≠ [] ∧
    c6Filters.blockedTags ≠ [] ∧
    (anonymousFeedBuilder c6Filters emptyBuilder "post").whereClauses =
      [whereTagsSql "post" "tags", whereNotTagsSql "post"] ∧
    whereNotTagsSql "post" ∈
      (anonymousFeedBuilder c6Filters emptyBuilder "post").whereClauses := by
  refine ⟨by decide, by decide, rfl, ?_⟩
  simp [anonymousFeedBuilder, c6Filters, QueryBuilder.andWhere, emptyBuilder]

/-- C6 amended: characterization of anonymousFeedBuilder. The source
filters are tie-broken include if present, else exclude if present, else no
filter; the include-tag and blocked-tag predicates are applied
independently, each exactly when its list is non-empty, so both are applied
when both lists are non-empty. -/
theorem c6_amended_source_tiebreak_tags_independent
    (filters : AnonymousFeedFilters) (b : QueryBuilder) (tableAlias : String) :
    (anonymousFeedBuilder filters b tableAlias).whereClauses =
      b.whereClauses ++
        (if !filters.includeSources.isEmpty then
          [tableAlias ++ ".sourceId IN (:...sources)"]
         else if !filters.excludeSources.isEmpty then
          [tableAlias ++ ".sourceId NOT IN (:...sources)"]
         else []) ++
        (if !filters.includeTags.isEmpty then [whereTagsSql tableAlias "tags"]
         else []) ++
        (if !filters.blockedTags.isEmpty then [whereNotTagsSql tableAlias]
         else []) ∧
    (anonymousFeedBuilder filters b tableAlias).orderClauses = b.orderClauses := by
  unfold anonymousFeedBuilder
  by_cases h1 : filters.includeSources.isEmpty <;>
    by_cases h2 : filters.excludeSources.isEmpty <;>
    by_cases h3 : filters.includeTags.isEmpty <;>
    by_cases h4 : filters.blockedTags.isEmpty <;>
    simp [h1, h2, h3, h4, QueryBuilder.andWhere, List.append_assoc]

/-- C8 witness database: no rows at all, so no feed has a tag
configuration. -/
def emptyDb : Database :=
  { postKeywords := [], feedTags := [], feedSources := [],
    sources := [], hiddenPosts := [] }

/-- C8 witness: with zero configured tags the predicate is true for a
concrete post. -/
theorem c8_feed_tag_membership_open_policy_witness :
    whereTagsInFeedHolds "f1" emptyDb (PostRow.mk "p1" "s1" false false) = true :=
  (c8_feed_tag_membership_open_policy "f1" emptyDb
    (PostRow.mk "p1" "s1" false false)).2 rfl

/-- Helper: the freshness test is negative when a timestamp exists, the
timestamp is within the staleness threshold and the cache covers the
requested range. -/
theorem feedNeedsFetch_false (cache : List String) (t pageSize offset now : Nat)
    (hcov : offset + pageSize ≤ cache.length)
    (hfresh : now - t ≤ staleThresholdMs) :
    feedNeedsFetch { cache := cache, lastUpdated := some t } pageSize offset now
      = false := by
  have hlen : ((cache.drop offset).take pageSize).length = pageSize := by
    simp [List.length_take, List.length_drop]
    omega
  simp [feedNeedsFetch, hlen]
  omega

/-- C1 counterexample: page size 1, cold cache, ranking response of one id.
The first call issues one Ranking Client call and returns that id, and the
immediately subsequent call for the next page, well inside the freshness
window, is not served from cache: it issues another external call, because
the response did not cover the second page. -/
theorem c1_counterexample_short_response :
    (generatePersonalizedFeed coldState 1 0 0 ["1"]).rankingCalls = 1 ∧
    (generatePersonalizedFeed coldState 1 0 0 ["1"]).ids = ["1"] ∧
    40 ≤ staleThresholdMs ∧
    ¬ ((generatePersonalizedFeed (generatePersonalizedFeed coldState 1 0 0
        ["1"]).state 1 1 40 ["1"]).rankingCalls = 0) := by
  decide

/-- C1 amended: for every page size, a cold-cache call at offset zero issues
exactly one Ranking Client call and returns the first pageSize ids of the
response in order, and the immediately subsequent call for the next page
within the freshness window is served from cache with no further external
call, provided the response covered that next page (length at least twice
the page size). -/
theorem c1_cold_fetch_then_cached_next_page (n t0 t1 : Nat)
    (ranking more : List String)
    (hcov : 2 * n ≤ ranking.length)
    (hfresh : t1 - t0 ≤ staleThresholdMs) :
    (generatePersonalizedFeed coldState n 0 t0 ranking).rankingCalls = 1 ∧
    (generatePersonalizedFeed coldState n 0 t0 ranking).ids = ranking.take n ∧
    (generatePersonalizedFeed
        (generatePersonalizedFeed coldState n 0 t0 ranking).state
        n n t1 more).rankingCalls = 0 ∧
    (generatePersonalizedFeed
        (generatePersonalizedFeed coldState n 0 t0 ranking).state
        n n t1 more).ids = (ranking.drop n).take n := by
  have h1 : feedNeedsFetch coldState n 0 t0 = true := rfl
  have hstate : (generatePersonalizedFeed coldState n 0 t0 ranking).state =
      { cache := ranking, lastUpdated := some t0 } := by
    simp [generatePersonalizedFeed, coldState, feedNeedsFetch]
  have h2 : feedNeedsFetch { cache := ranking, lastUpdated := some t0 } n n t1
      = false :=
    feedNeedsFetch_false ranking t0 n n t1 (by omega) hfresh
  refine ⟨?_, ?_, ?_, ?_⟩
  · simp [generatePersonalizedFeed, h1]
  · simp [generatePersonalizedFeed, h1]
  · rw [hstate]
    simp [generatePersonalizedFeed, h2]
  · rw [hstate]
    simp [generatePersonalizedFeed, h2]

/-- C1 witness: the concrete scenario of the spec and test suite: page size
2, cold cache, response 1..6; the first page is served by one external call
and the next page comes from cache with none. -/
theorem c1_cold_fetch_then_cached_next_page_witness :
    (generatePersonalizedFeed coldState 2 0 0
      ["1", "2", "3", "4", "5", "6"]).rankingCalls = 1 ∧
    (generatePersonalizedFeed coldState 2 0 0
      ["1", "2", "3", "4", "5", "6"]).ids = ["1", "2"] ∧
    (generatePersonalizedFeed
      (generatePersonalizedFeed coldState 2 0 0
        ["1", "2", "3", "4", "5", "6"]).state 2 2 50 []).rankingCalls = 0 ∧
    (generatePersonalizedFeed
      (generatePersonalizedFeed coldState 2 0 0
        ["1", "2", "3", "4", "5", "6"]).state 2 2 50 []).ids = ["3", "4"] :=
  c1_cold_fetch_then_cached_next_page 2 0 50 ["1", "2", "3", "4", "5", "6"] []
    (by decide) (by decide)

/-- C2: a cache with a timestamp within the staleness threshold that fully
covers the requested range serves the previously cached ids verbatim, with
zero Ranking Client calls and an unchanged cache state; the result does not
depend on the ranking argument, so the request never depends on the Ranking
Client availability. -/
theorem c2_fresh_cache_serves_without_fetch (st : FeedState)
    (pageSize offset now t : Nat) (ranking : List String)
    (hup : st.lastUpdated = some t)
    (hfresh : now - t ≤ staleThresholdMs)
    (hcov : offset + pageSize ≤ st.cache.length) :
    (generatePersonalizedFeed st pageSize offset now ranking).ids =
      (st.cache.drop offset).take pageSize ∧
    (generatePersonalizedFeed st pageSize offset now ranking).rankingCalls = 0 ∧
    (generatePersonalizedFeed st pageSize offset now ranking).state = st := by
  obtain ⟨cache, lu⟩ := st
  subst hup
  have h := feedNeedsFetch_false cache t pageSize offset now hcov hfresh
  simp [generatePersonalizedFeed, h]

/-- C2 witness: the concrete scenario of the spec and test suite: cache
pre-seeded with 7,8 and a fresh timestamp serves 7,8 with zero external
calls. -/
theorem c2_fresh_cache_serves_without_fetch_witness :
    (generatePersonalizedFeed { cache := ["7", "8"], lastUpdated := some 0 }
      2 0 1000 ["1", "2", "3", "4", "5", "6"]).ids = ["7", "8"] ∧
    (generatePersonalizedFeed { cache := ["7", "8"], lastUpdated := some 0 }
      2 0 1000 ["1", "2", "3", "4", "5", "6"]).rankingCalls = 0 ∧
    (generatePersonalizedFeed { cache := ["7", "8"], lastUpdated := some 0 }
      2 0 1000 ["1", "2", "3", "4", "5", "6"]).state =
      { cache := ["7", "8"], lastUpdated := some 0 } :=
  c2_fresh_cache_serves_without_fetch
    { cache := ["7", "8"], lastUpdated := some 0 } 2 0 1000 0
    ["1", "2", "3", "4", "5", "6"] rfl (by decide) (by decide)

/-- C3: every fetch against a non-empty cache appends the fetched ids after
the existing entries, at ranks continuing from the current maximum, so the
old cache is exactly the leading segment of the new cache and every
previously cached id is still at its original offset. -/
theorem c3_fetch_appends_after_cached_entries (st : FeedState)
    (pageSize offset now : Nat) (ranking : List String)
    (hne : st.cache ≠ [])
    (hfetch : feedNeedsFetch st pageSize offset now = true) :
    (generatePersonalizedFeed st pageSize offset now ranking).rankingCalls = 1 ∧
    (generatePersonalizedFeed st pageSize offset now ranking).state.cache =
      st.cache ++ ranking ∧
    (generatePersonalizedFeed st pageSize offset now ranking).state.cache.take
        st.cache.length = st.cache := by
  have hu := hne
  simp [generatePersonalizedFeed, hfetch]

/-- C3 witness: the concrete scenario of the spec and test suite: a stale
cache pre-seeded with 7,8 is re-validated by a fetch returning 1..6; the
fetched ids are appended and ids 7 and 8 are still at offsets 0 and 1. -/
theorem c3_fetch_appends_after_cached_entries_witness :
    (generatePersonalizedFeed { cache := ["7", "8"], lastUpdated := some 0 }
      2 0 3600000 ["1", "2", "3", "4", "5", "6"]).rankingCalls = 1 ∧
    (generatePersonalizedFeed { cache := ["7", "8"], lastUpdated := some 0 }
      2 0 3600000 ["1", "2", "3", "4", "5", "6"]).state.cache =
      ["7", "8", "1", "2", "3", "4", "5", "6"] ∧
    (generatePersonalizedFeed { cache := ["7", "8"], lastUpdated := some 0 }
      2 0 3600000 ["1", "2", "3", "4", "5", "6"]).state.cache.take 2 =
      ["7", "8"] :=
  c3_fetch_appends_after_cached_entries
    { cache := ["7", "8"], lastUpdated := some 0 } 2 0 3600000
    ["1", "2", "3", "4", "5", "6"] (by decide) (by decide)

/-- Helper: parameter names contributed by an optional scalar parameter. -/
theorem optStrParam_fst (name : String) (v : Option String) :
    (optStrParam name v).map Prod.fst = if v.getD "" = "" then [] else [name] := by
  rcases v with _ | s
  · simp [optStrParam]
  · by_cases h : s = "" <;> simp [optStrParam, h, String.isEmpty_iff]

/-- Helper: parameter names contributed by an optional list parameter. -/
theorem optListParam_fst (name : String) (vs : List String) :
    (optListParam name vs).map Prod.fst = if vs = [] then [] else [name] := by
  by_cases h : vs = [] <;> simp [optListParam, h, List.isEmpty_iff]

/-- Helper: membership in an if-guarded singleton list. -/
theorem mem_ite_nil_single (c : Prop) [Decidable c] (m nm : String) :
    m ∈ (if c then ([] : List String) else [nm]) ↔ ¬c ∧ m = nm := by
  split <;> simp_all

/-- Helper: membership characterization for an optional scalar parameter. -/
theorem mem_optStrParam_iff (name m v : String) (o : Option String) :
    (m, v) ∈ optStrParam name o ↔ m = name ∧ o = some v ∧ v ≠ "" := by
  rcases o with _ | s
  · simp [optStrParam]
  · by_cases h : s = ""
    · simp [optStrParam, h, String.isEmpty_iff]
      aesop
    · simp [optStrParam, h, String.isEmpty_iff]
      aesop

/-- Helper: membership characterization for an optional list parameter. -/
theorem mem_optListParam_iff (name m v : String) (vs : List String) :
    (m, v) ∈ optListParam name vs ↔
      m = name ∧ vs ≠ [] ∧ v = String.intercalate "," vs := by
  by_cases h : vs = []
  · simp [optListParam, h, List.isEmpty_iff]
  · simp [optListParam, h, List.isEmpty_iff]

/-- C4: the Ranking Client query parameters occur in the fixed order token,
page_size, fresh_page_size, user_id, allowed_tags, blocked_tags,
blocked_sources; user_id appears exactly when a non-empty user id is
present and each list parameter appears exactly when its list is non-empty,
omitted entirely otherwise; every list parameter value is the comma-join of
its list. -/
theorem c4_query_param_order_and_omission (token : String)
    (pageSize freshPageSize : Nat) (userId : Option String)
    (allowedTags blockedTags blockedSources : List String) :
    List.Sublist
      ((feedQueryParams token pageSize freshPageSize userId allowedTags
        blockedTags blockedSources).map Prod.fst) feedQueryParamOrder ∧
    ("user_id" ∈ (feedQueryParams token pageSize freshPageSize userId allowedTags
        blockedTags blockedSources).map Prod.fst ↔ ∃ s, userId = some s ∧ s ≠ "") ∧
    ("allowed_tags" ∈ (feedQueryParams token pageSize freshPageSize userId allowedTags
        blockedTags blockedSources).map Prod.fst ↔ allowedTags ≠ []) ∧
    ("blocked_tags" ∈ (feedQueryParams token pageSize freshPageSize userId allowedTags
        blockedTags blockedSources).map Prod.fst ↔ blockedTags ≠ []) ∧
    ("blocked_sources" ∈ (feedQueryParams token pageSize freshPageSize userId allowedTags
        blockedTags blockedSources).map Prod.fst ↔ blockedSources ≠ []) ∧
    (∀ v, ("allowed_tags", v) ∈ feedQueryParams token pageSize freshPageSize userId
        allowedTags blockedTags blockedSources →
        v = String.intercalate "," allowedTags) ∧
    (∀ v, ("blocked_tags", v) ∈ feedQueryParams token pageSize freshPageSize userId
        allowedTags blockedTags blockedSources →
        v = String.intercalate "," blockedTags) ∧
    (∀ v, ("blocked_sources", v) ∈ feedQueryParams token pageSize freshPageSize userId
        allowedTags blockedTags blockedSources →
        v = String.intercalate "," blockedSources) := by
  have hmap : (feedQueryParams token pageSize freshPageSize userId allowedTags
      blockedTags blockedSources).map Prod.fst =
      ["token", "page_size", "fresh_page_size"]
        ++ (if userId.getD "" = "" then [] else ["user_id"])
        ++ (if allowedTags = [] then [] else ["allowed_tags"])
        ++ (if blockedTags = [] then [] else ["blocked_tags"])
        ++ (if blockedSources = [] then [] else ["blocked_sources"]) := by
    simp [feedQueryParams, optStrParam_fst, optListParam_fst, List.append_assoc]
  have hsub : ∀ (c : Prop) (inst : Decidable c) (nm : String),
      List.Sublist (if c then ([] : List String) else [nm]) [nm] := by
    intro c inst nm
    split <;> simp
  refine ⟨?_, ?_, ?_, ?_, ?_, ?_, ?_, ?_⟩
  · rw [hmap]
    have horder : feedQueryParamOrder =
        ["token", "page_size", "fresh_page_size"] ++ ["user_id"]
          ++ ["allowed_tags"] ++ ["blocked_tags"] ++ ["blocked_sources"] := rfl
    rw [horder]
    exact ((((List.Sublist.refl _).append (hsub _ _ _)).append
      (hsub _ _ _)).append (hsub _ _ _)).append (hsub _ _ _)
  · rw [hmap]
    simp [List.mem_append, mem_ite_nil_single]
    rcases userId with _ | s <;> simp
  · rw [hmap]
    simp [List.mem_append, mem_ite_nil_single]
  · rw [hmap]
    simp [List.mem_append, mem_ite_nil_single]
  · rw [hmap]
    simp [List.mem_append, mem_ite_nil_single]
  · intro v hv
    simp [feedQueryParams, List.mem_append, mem_optStrParam_iff,
      mem_optListParam_iff] at hv
    exact hv.2
  · intro v hv
    simp [feedQueryParams, List.mem_append, mem_optStrParam_iff,
      mem_optListParam_iff] at hv
    exact hv.2
  · intro v hv
    simp [feedQueryParams, List.mem_append, mem_optStrParam_iff,
      mem_optListParam_iff] at hv
    exact hv.2

/-- C4 witness: the concrete scenario of the spec and test suite, with
user u1, allowed tags javascript and golang, blocked tags python and java
and blocked sources a and b; the comma-join conjunct and the user_id
presence conjunct of the theorem are applied, and the rendered query string
is exactly the one the test expects. -/
theorem c4_query_param_order_and_omission_witness :
    "javascript,golang" = String.intercalate "," ["javascript", "golang"] ∧
    ("user_id" ∈ (feedQueryParams "token" 2 1 (some "u1")
      ["javascript", "golang"] ["python", "java"] ["a", "b"]).map Prod.fst) ∧
    feedQueryString (feedQueryParams "token" 2 1 (some "u1")
      ["javascript", "golang"] ["python", "java"] ["a", "b"]) =
      "token=token&page_size=2&fresh_page_size=1&user_id=u1" ++
        "&allowed_tags=javascript,golang&blocked_tags=python,java" ++
        "&blocked_sources=a,b" :=
  ⟨(c4_query_param_order_and_omission "token" 2 1 (some "u1")
      ["javascript", "golang"] ["python", "java"] ["a", "b"]).2.2.2.2.2.1
      "javascript,golang" (by decide),
   (c4_query_param_order_and_omission "token" 2 1 (some "u1")
      ["javascript", "golang"] ["python", "java"] ["a", "b"]).2.1.mpr
      ⟨"u1", rfl, by decide⟩,
   by decide⟩
